import Mathlib

/-!
Verification of the tool-calling orchestration loop of a minimal
command-line agent (Rust, `src/main.rs`).  The loop sends a conversation to
a chat-completion endpoint, dispatches the tool calls the model requests
(Read, Write, Bash), appends the results to the conversation and repeats
until the model answers with plain text.

The embedding below models:
  - the JSON fragment `serde_json` handles for tool arguments
    (`parseJson` for `serde_json::from_str::<Value>`, `renderJson` for
    `Value::to_string`, `jsonIndex` for `Value::index`, `Json.asStr` for
    `Value::as_str`, `debugJson` for the `Debug` rendering used in error
    messages);
  - the file system and the shell as explicit state (`World`): the file
    system is a partial map from paths to contents, the shell an oracle
    from a command to an exit code and the two captured output streams;
  - the tool handlers `call_read_tool`, `call_write_tool`, `call_bash_tool`
    and the helpers `read_file_to_string`, `write_to_file`,
    `execute_bash_command`, with the source's names;
  - the per-iteration body of the orchestrator loop (`loopBody`), covering
    the dispatch over tool-call variants, `append_tool_responses`, and the
    fatal/continue/done outcome.  Errors that the Rust code propagates with
    `?` out of `main` are modelled as `Except.error` (the process exits);
    a normal iteration is `Except.ok` with either the extended message list
    or the final text.
-/

-- ## A model of the JSON values and text handling of serde_json

/-- Opening brace character, written via its code point. -/
def lbrace : Char := Char.ofNat 123

/-- Closing brace character, written via its code point. -/
def rbrace : Char := Char.ofNat 125

/-- JSON values, mirroring `serde_json::Value` on the fragment the tool
arguments use.  Numbers are modelled as integers: the three tool schemas
only ever carry string-valued keys, so no claim depends on fractional
numbers. -/
inductive Json where
  | null : Json
  | bool (b : Bool) : Json
  | num (n : Int) : Json
  | str (s : String) : Json
  | arr (xs : List Json) : Json
  | obj (fields : List (String × Json)) : Json

/-- Models `Value::as_str`: the string when the value is a JSON string. -/
def Json.asStr : Json → Option String
  | Json.str s => some s
  | _ => none

/-- First value bound to `key` in an object's field list. -/
def jsonLookup : List (String × Json) → String → Json
  | [], _ => Json.null
  | (k, v) :: rest, key => if k = key then v else jsonLookup rest key

/-- Models `Value::index` with a string key (`args["file_path"]`): the bound
value of an object, `Null` when the key is absent or the value is not an
object. -/
def jsonIndex (v : Json) (key : String) : Json :=
  match v with
  | Json.obj fields => jsonLookup fields key
  | _ => Json.null

/-- JSON whitespace. -/
def isJsonWs (c : Char) : Bool :=
  c = ' ' || c = '\t' || c = '\n' || c = '\r'

/-- Drop leading JSON whitespace. -/
def skipWs : List Char → List Char
  | [] => []
  | c :: cs => if isJsonWs c then skipWs cs else c :: cs

/-- Value of one hexadecimal digit. -/
def hexDigit (c : Char) : Option Nat :=
  if 48 ≤ c.toNat && c.toNat ≤ 57 then some (c.toNat - 48)
  else if 97 ≤ c.toNat && c.toNat ≤ 102 then some (c.toNat - 87)
  else if 65 ≤ c.toNat && c.toNat ≤ 70 then some (c.toNat - 55)
  else none

/-- Decimal digit test. -/
def isDigitChar (c : Char) : Bool := 48 ≤ c.toNat && c.toNat ≤ 57

/-- Split off a maximal run of decimal digits. -/
def takeDigits : List Char → List Char × List Char
  | [] => ([], [])
  | c :: cs =>
    if isDigitChar c then
      let p := takeDigits cs
      (c :: p.1, p.2)
    else ([], c :: cs)

/-- Value of a digit run. -/
def digitsToNat (ds : List Char) : Nat :=
  ds.foldl (fun acc c => acc * 10 + (c.toNat - 48)) 0

/-- Body of a JSON string literal after the opening quote, with the common
escapes; fuel-based recursion, one unit per consumed character. -/
def parseStringBody : Nat → List Char → Option (String × List Char)
  | 0, _ => none
  | _ + 1, [] => none
  | fuel + 1, c :: cs =>
    if c = '"' then some ("", cs)
    else if c = '\\' then
      match cs with
      | [] => none
      | e :: rest =>
        let decoded : Option (Char × List Char) :=
          if e = '"' then some ('"', rest)
          else if e = '\\' then some ('\\', rest)
          else if e = '/' then some ('/', rest)
          else if e = 'n' then some ('\n', rest)
          else if e = 't' then some ('\t', rest)
          else if e = 'r' then some ('\r', rest)
          else if e = 'b' then some (Char.ofNat 8, rest)
          else if e = 'f' then some (Char.ofNat 12, rest)
          else if e = 'u' then
            match rest with
            | h1 :: h2 :: h3 :: h4 :: rest2 =>
              match hexDigit h1, hexDigit h2, hexDigit h3, hexDigit h4 with
              | some a, some b, some c2, some d =>
                some (Char.ofNat (((a * 16 + b) * 16 + c2) * 16 + d), rest2)
              | _, _, _, _ => none
            | _ => none
          else none
        match decoded with
        | some (ch, rest2) =>
          match parseStringBody fuel rest2 with
          | some (s, rest3) => some (String.singleton ch ++ s, rest3)
          | none => none
        | none => none
    else if c.toNat < 32 then none
    else
      match parseStringBody fuel cs with
      | some (s, rest3) => some (String.singleton c ++ s, rest3)
      | none => none

/-- A JSON number (integer fragment): optional minus then digits. -/
def parseNumber (cs : List Char) : Option (Json × List Char) :=
  match cs with
  | '-' :: rest =>
    let p := takeDigits rest
    if p.1.isEmpty then none
    else some (Json.num (-(Int.ofNat (digitsToNat p.1))), p.2)
  | _ =>
    let p := takeDigits cs
    if p.1.isEmpty then none
    else some (Json.num (Int.ofNat (digitsToNat p.1)), p.2)

mutual

/-- One JSON value, with leading whitespace allowed; fuel decreases at each
nesting step and is initialised above the input length. -/
def parseValue : Nat → List Char → Option (Json × List Char)
  | 0, _ => none
  | fuel + 1, cs =>
    match skipWs cs with
    | [] => none
    | c :: rest =>
      if c = '"' then
        match parseStringBody (fuel + 1) rest with
        | some (s, rest2) => some (Json.str s, rest2)
        | none => none
      else if c = lbrace then
        match skipWs rest with
        | d :: rest2 =>
          if d = rbrace then some (Json.obj [], rest2)
          else
            match parseMembers fuel (d :: rest2) with
            | some (fields, rest3) => some (Json.obj fields, rest3)
            | none => none
        | [] => none
      else if c = '[' then
        match skipWs rest with
        | d :: rest2 =>
          if d = ']' then some (Json.arr [], rest2)
          else
            match parseElements fuel (d :: rest2) with
            | some (xs, rest3) => some (Json.arr xs, rest3)
            | none => none
        | [] => none
      else if c = 't' then
        match rest with
        | 'r' :: 'u' :: 'e' :: rest2 => some (Json.bool true, rest2)
        | _ => none
      else if c = 'f' then
        match rest with
        | 'a' :: 'l' :: 's' :: 'e' :: rest2 => some (Json.bool false, rest2)
        | _ => none
      else if c = 'n' then
        match rest with
        | 'u' :: 'l' :: 'l' :: rest2 => some (Json.null, rest2)
        | _ => none
      else parseNumber (c :: rest)

/-- Members of a non-empty JSON object, up to and including the closing
brace. -/
def parseMembers : Nat → List Char → Option (List (String × Json) × List Char)
  | 0, _ => none
  | fuel + 1, cs =>
    match skipWs cs with
    | [] => none
    | c :: rest =>
      if c = '"' then
        match parseStringBody (fuel + 1) rest with
        | some (key, rest2) =>
          match skipWs rest2 with
          | ':' :: rest3 =>
            match parseValue fuel rest3 with
            | some (v, rest4) =>
              match skipWs rest4 with
              | d :: rest5 =>
                if d = ',' then
                  match parseMembers fuel rest5 with
                  | some (fields, rest6) => some ((key, v) :: fields, rest6)
                  | none => none
                else if d = rbrace then some ([(key, v)], rest5)
                else none
              | [] => none
            | none => none
          | _ => none
        | none => none
      else none

/-- Elements of a non-empty JSON array, up to and including the closing
bracket. -/
def parseElements : Nat → List Char → Option (List Json × List Char)
  | 0, _ => none
  | fuel + 1, cs =>
    match parseValue fuel cs with
    | some (v, rest) =>
      match skipWs rest with
      | d :: rest2 =>
        if d = ',' then
          match parseElements fuel rest2 with
          | some (xs, rest3) => some (v :: xs, rest3)
          | none => none
        else if d = ']' then some ([v], rest2)
        else none
      | [] => none
    | none => none

end

/-- Models `serde_json::from_str::<Value>` on the fragment above: one value,
nothing but whitespace after it. -/
def parseJson (s : String) : Option Json :=
  match parseValue (s.length + 2) s.toList with
  | some (v, rest) =>
    match skipWs rest with
    | [] => some v
    | _ :: _ => none
  | none => none

/-- Escape of one character inside a rendered JSON string, as
`Value::to_string` emits it. -/
def escapeJsonChar (c : Char) : String :=
  if c = '"' then "\\\""
  else if c = '\\' then "\\\\"
  else if c = '\n' then "\\n"
  else if c = '\r' then "\\r"
  else if c = '\t' then "\\t"
  else if c.toNat < 32 then
    "\\u00" ++ String.singleton (Char.ofNat (if c.toNat / 16 < 10 then 48 + c.toNat / 16 else 87 + c.toNat / 16))
      ++ String.singleton (Char.ofNat (if c.toNat % 16 < 10 then 48 + c.toNat % 16 else 87 + c.toNat % 16))
  else String.singleton c

/-- A rendered (quoted, escaped) JSON string literal. -/
def renderString (s : String) : String :=
  "\"" ++ (s.toList.map escapeJsonChar).foldl (fun a b => a ++ b) "" ++ "\""

mutual

/-- Models `serde_json::Value::to_string`: the compact rendering used when a
tool response value becomes the content of a tool message. -/
def renderJson : Json → String
  | Json.null => "null"
  | Json.bool true => "true"
  | Json.bool false => "false"
  | Json.num n => toString n
  | Json.str s => renderString s
  | Json.arr xs => "[" ++ renderJsonElems xs ++ "]"
  | Json.obj fields =>
    String.singleton lbrace ++ renderJsonMembers fields ++ String.singleton rbrace

/-- Comma-separated rendering of array elements. -/
def renderJsonElems : List Json → String
  | [] => ""
  | [x] => renderJson x
  | x :: y :: rest => renderJson x ++ "," ++ renderJsonElems (y :: rest)

/-- Comma-separated rendering of object members. -/
def renderJsonMembers : List (String × Json) → String
  | [] => ""
  | [kv] => renderString kv.1 ++ ":" ++ renderJson kv.2
  | kv :: kv2 :: rest =>
    renderString kv.1 ++ ":" ++ renderJson kv.2 ++ "," ++ renderJsonMembers (kv2 :: rest)

end

mutual

/-- Models the `Debug` rendering of a `serde_json::Value` (used in the
`Args were: {args:#?}` part of the missing-argument error messages); the
exact layout is immaterial to every claim, only that the message carries
it. -/
def debugJson : Json → String
  | Json.null => "Null"
  | Json.bool true => "Bool(true)"
  | Json.bool false => "Bool(false)"
  | Json.num n => "Number(" ++ toString n ++ ")"
  | Json.str s => "String(" ++ renderString s ++ ")"
  | Json.arr xs => "Array [" ++ debugJsonElems xs ++ "]"
  | Json.obj fields =>
    "Object " ++ String.singleton lbrace ++ debugJsonMembers fields ++ String.singleton rbrace

/-- Comma-separated debug rendering of array elements. -/
def debugJsonElems : List Json → String
  | [] => ""
  | [x] => debugJson x
  | x :: y :: rest => debugJson x ++ ", " ++ debugJsonElems (y :: rest)

/-- Comma-separated debug rendering of object members. -/
def debugJsonMembers : List (String × Json) → String
  | [] => ""
  | [kv] => renderString kv.1 ++ ": " ++ debugJson kv.2
  | kv :: kv2 :: rest =>
    renderString kv.1 ++ ": " ++ debugJson kv.2 ++ ", " ++ debugJsonMembers (kv2 :: rest)

end

-- ## The data model of the tool-calling loop (src/main.rs)

/-- Models `FunctionCall` inside `ChatCompletionMessageToolCall`: the tool's
name and its raw argument text. -/
structure FunctionDetail where
  name : String
  arguments : String
  deriving DecidableEq

/-- Models `async_openai`'s `ChatCompletionMessageToolCall`: one function
tool-call request with its per-response id. -/
structure ChatCompletionMessageToolCall where
  id : String
  function : FunctionDetail
  deriving DecidableEq

/-- Models the `ChatCompletionMessageToolCalls` enum the loop iterates over:
a function tool call, or another (custom) variant, which the `if let` at
`main.rs:80` silently skips. -/
inductive ChatCompletionMessageToolCalls where
  | function (call : ChatCompletionMessageToolCall)
  | custom (id : String) (input : String)
  deriving DecidableEq

/-- Models the message of one response choice: optional text content and
optional tool-call list, as `main` inspects them. -/
structure ResponseMessage where
  content : Option String
  tool_calls : Option (List ChatCompletionMessageToolCalls)
  deriving DecidableEq

/-- Models one choice of a chat-completion response (only the `message`
field is read by the loop). -/
structure Choice where
  message : ResponseMessage
  deriving DecidableEq

/-- Models a chat-completion response: its list of choices. -/
structure Response where
  choices : List Choice
  deriving DecidableEq

/-- Models the request messages the loop appends
(`ChatCompletionRequestMessage`): the seeded user prompt, an assistant
message carrying tool calls, or a tool-result message. -/
inductive ReqMessage where
  | user (text : String)
  | assistant (tool_calls : List ChatCompletionMessageToolCalls)
  | tool (tool_call_id : String) (content : String)
  deriving DecidableEq

/-- The external state the tool handlers touch: the file system as a partial
map from paths to (UTF-8) contents; the shell as an oracle from a command to
`some (exit code, stdout, stderr)` when `bash -c` spawns, `none` when
spawning fails; and a write oracle `writeError`, `some e` when writing that
path fails with the I/O error `e` (unwritable directory, permission denied),
`none` when creating and writing the file succeeds. -/
structure World where
  fs : String → Option String
  bash : String → Option (Int × String × String)
  writeError : String → Option String

/-- Models `read_file_to_string` (`main.rs:185`):
`std::fs::read_to_string` succeeds with the contents and fails with an I/O
error when the path is missing or unreadable. -/
def read_file_to_string (w : World) (path : String) : Except String String :=
  match w.fs path with
  | some contents => Except.ok contents
  | none => Except.error ("No such file or directory (os error 2): " ++ path)

/-- Models `write_to_file` (`main.rs:191`): `File::create(path)?` then
`file.write_all(contents.as_bytes())?` — either I/O step failing propagates
its error (both failure modes are represented by the world's `writeError`
oracle); on success the file at `path` holds exactly the new contents
(truncate-or-create, full write). -/
def write_to_file (w : World) (path : String) (contents : String) :
    Except String World :=
  match w.writeError path with
  | some e => Except.error e
  | none =>
    Except.ok { w with fs := fun q => if q = path then some contents else w.fs q }

/-- Models `execute_bash_command` (`main.rs:197`): on a successful spawn the
result is `format!("{stdout} {stderr}")` — stdout, one space, stderr — with
the exit code ignored; a failed spawn is an error. -/
def execute_bash_command (w : World) (command : String) : Except String String :=
  match w.bash command with
  | some (_, stdout, stderr) => Except.ok (stdout ++ " " ++ stderr)
  | none => Except.error ("Failed to spawn bash for: " ++ command)

/-- Models `call_read_tool` (`main.rs:140`): requires a string `file_path`
argument, reads the file, and pushes `(tool_call, json!(contents))` onto the
response list.  Both the missing-argument error and the read error are
returned as `Err` (the Rust `?`), which the caller propagates. -/
def call_read_tool (w : World) (tool_call : ChatCompletionMessageToolCall)
    (args : Json) : Except String (World × (ChatCompletionMessageToolCall × Json)) :=
  match (jsonIndex args "file_path").asStr with
  | none =>
    Except.error ("Should have a `file_path` argument. Args were: " ++ debugJson args)
  | some file_path =>
    match read_file_to_string w file_path with
    | Except.error e => Except.error e
    | Except.ok file_contents => Except.ok (w, (tool_call, Json.str file_contents))

/-- Models `call_write_tool` (`main.rs:155`): requires string `file_path`
and `content` arguments, writes the file — propagating a write failure with
`?` (`main.rs:166`) — and on success pushes `(tool_call, json!(content))`. -/
def call_write_tool (w : World) (tool_call : ChatCompletionMessageToolCall)
    (args : Json) : Except String (World × (ChatCompletionMessageToolCall × Json)) :=
  match (jsonIndex args "file_path").asStr with
  | none => Except.error "Should have a `file_path` argument."
  | some file_path =>
    match (jsonIndex args "content").asStr with
    | none =>
      Except.error ("Should have a `content` argument. Args were: " ++ debugJson args)
    | some content =>
      match write_to_file w file_path content with
      | Except.error e => Except.error e
      | Except.ok w2 => Except.ok (w2, (tool_call, Json.str content))

/-- Models `call_bash_tool` (`main.rs:172`): requires a string `command`
argument, runs it, and pushes `(tool_call, json!(output))`. -/
def call_bash_tool (w : World) (tool_call : ChatCompletionMessageToolCall)
    (args : Json) : Except String (World × (ChatCompletionMessageToolCall × Json)) :=
  match (jsonIndex args "command").asStr with
  | none =>
    Except.error ("Should have a `command` argument. Args were: " ++ debugJson args)
  | some command =>
    match execute_bash_command w command with
    | Except.error e => Except.error e
    | Except.ok output => Except.ok (w, (tool_call, Json.str output))

/-- Models the body of the `for tool_call_enum in tool_calls` loop for one
function tool call (`main.rs:83-94`): parse the raw arguments as JSON
(fatal when malformed, via `?`), then dispatch on the name; an unknown name
pushes `json!("Unknown tool: {name}")` instead of failing. -/
def dispatchFunctionCall (w : World) (tool_call : ChatCompletionMessageToolCall) :
    Except String (World × (ChatCompletionMessageToolCall × Json)) :=
  match parseJson tool_call.function.arguments with
  | none =>
    Except.error ("invalid JSON in tool arguments: " ++ tool_call.function.arguments)
  | some args =>
    match tool_call.function.name with
    | "Read" => call_read_tool w tool_call args
    | "Write" => call_write_tool w tool_call args
    | "Bash" => call_bash_tool w tool_call args
    | name => Except.ok (w, (tool_call, Json.str ("Unknown tool: " ++ name)))

/-- Models the whole `for` loop over one response's tool calls
(`main.rs:78-96`): non-function variants are skipped by the `if let`;
function calls are dispatched in order, accumulating `function_responses`;
the first handler error aborts the iteration (and the process). -/
def processToolCalls (w : World) :
    List ChatCompletionMessageToolCalls →
      Except String (World × List (ChatCompletionMessageToolCall × Json))
  | [] => Except.ok (w, [])
  | ChatCompletionMessageToolCalls.custom _ _ :: rest => processToolCalls w rest
  | ChatCompletionMessageToolCalls.function tool_call :: rest =>
    match dispatchFunctionCall w tool_call with
    | Except.error e => Except.error e
    | Except.ok (w2, entry) =>
      match processToolCalls w2 rest with
      | Except.error e => Except.error e
      | Except.ok (w3, entries) => Except.ok (w3, entry :: entries)

/-- Models `append_tool_responses` (`main.rs:108`): push one assistant
message whose tool calls are rebuilt from the collected responses, then one
tool message per response, in order, with the request's id and the
JSON-rendered response value as content. -/
def append_tool_responses (messages : List ReqMessage)
    (function_responses : List (ChatCompletionMessageToolCall × Json)) :
    List ReqMessage :=
  let tool_calls := function_responses.map
    (fun r => ChatCompletionMessageToolCalls.function r.1)
  let tool_messages := function_responses.map
    (fun r => ReqMessage.tool r.1.id (renderJson r.2))
  messages ++ ReqMessage.assistant tool_calls :: tool_messages

/-- Outcome of one loop iteration that did not fail: continue with the
extended conversation and the new world, or finish with the printed text. -/
inductive StepOutcome where
  | next (messages : List ReqMessage) (w : World)
  | done (text : String)

/-- Models one iteration of the `loop` in `main` (`main.rs:72-104`) after
the response arrives: take the first choice (fatal when there is none); if
its message has tool calls, dispatch them all and append the assistant and
tool messages; otherwise print the content and stop; with neither, fail
fatally.  `Except.error` stands for an error propagating out of `main`. -/
def loopBody (w : World) (messages : List ReqMessage) (response : Response) :
    Except String StepOutcome :=
  match response.choices.head? with
  | none => Except.error "No choices"
  | some choice =>
    match choice.message.tool_calls with
    | some tool_calls =>
      match processToolCalls w tool_calls with
      | Except.error e => Except.error e
      | Except.ok (w2, function_responses) =>
        Except.ok
          (StepOutcome.next (append_tool_responses messages function_responses) w2)
    | none =>
      match choice.message.content with
      | some text => Except.ok (StepOutcome.done text)
      | none => Except.error "Response had neither tool calls nor content"

-- ## Helper functions for stating the claims

/-- True when a step result is a normal (non-fatal) outcome. -/
def stepOk : Except String StepOutcome → Bool
  | Except.ok _ => true
  | Except.error _ => false

/-- The function-variant calls of a tool-call list, in order. -/
def functionCallsOf :
    List ChatCompletionMessageToolCalls → List ChatCompletionMessageToolCall
  | [] => []
  | ChatCompletionMessageToolCalls.function tc :: rest => tc :: functionCallsOf rest
  | ChatCompletionMessageToolCalls.custom _ _ :: rest => functionCallsOf rest

/-- True when every call of the list is the function variant. -/
def allFunctionCalls : List ChatCompletionMessageToolCalls → Bool
  | [] => true
  | ChatCompletionMessageToolCalls.function _ :: rest => allFunctionCalls rest
  | ChatCompletionMessageToolCalls.custom _ _ :: _ => false

/-- Number of tool-result messages in a message list. -/
def toolMessageCount : List ReqMessage → Nat
  | [] => 0
  | ReqMessage.tool _ _ :: rest => toolMessageCount rest + 1
  | _ :: rest => toolMessageCount rest

/-- A world with no files, no runnable shell, and every path writable. -/
def emptyWorld : World :=
  { fs := fun _ => none, bash := fun _ => none, writeError := fun _ => none }

/-- A response whose single choice asks for the single given tool call. -/
def singleCallResponse (call : ChatCompletionMessageToolCalls) : Response :=
  { choices := [{ message := { content := none, tool_calls := some [call] } }] }

-- ## Concrete inputs used by counterexamples and witnesses

/-- A Read call for a file that does not exist in `emptyWorld`. -/
def readMissingCall : ChatCompletionMessageToolCall :=
  { id := "call_1",
    function := { name := "Read", arguments := "\x7b\"file_path\": \"/missing.txt\"\x7d" } }

/-- A Read call for the file of `configWorld`. -/
def readConfigCall : ChatCompletionMessageToolCall :=
  { id := "call_2",
    function := { name := "Read", arguments := "\x7b\"file_path\": \"config.txt\"\x7d" } }

/-- A Read call invoked with the empty argument object. -/
def readEmptyArgsCall : ChatCompletionMessageToolCall :=
  { id := "call_3", function := { name := "Read", arguments := "\x7b\x7d" } }

/-- A Read call whose raw arguments are not valid JSON. -/
def badJsonReadCall : ChatCompletionMessageToolCall :=
  { id := "call_4", function := { name := "Read", arguments := "not json" } }

/-- An unknown-tool call whose raw arguments are not valid JSON. -/
def fooBadArgsCall : ChatCompletionMessageToolCall :=
  { id := "call_5", function := { name := "Foo", arguments := "\x7d\x7b" } }

/-- An unknown-tool call with well-formed (empty-object) arguments. -/
def fooEmptyArgsCall : ChatCompletionMessageToolCall :=
  { id := "call_6", function := { name := "Foo", arguments := "\x7b\x7d" } }

/-- A Write call whose raw arguments are not valid JSON. -/
def badJsonWriteCall : ChatCompletionMessageToolCall :=
  { id := "call_7", function := { name := "Write", arguments := "oops" } }

/-- A world holding one file, `config.txt` with contents `hello`. -/
def configWorld : World :=
  { fs := fun p => if p = "config.txt" then some "hello" else none,
    bash := fun _ => none,
    writeError := fun _ => none }

/-- A world whose shell runs `exit 1` with empty stdout and stderr and exit
code 1, and spawns nothing else. -/
def exitOneWorld : World :=
  { fs := fun _ => none,
    bash := fun c => if c = "exit 1" then some (1, "", "") else none,
    writeError := fun _ => none }

/-- A Write call aimed at a path inside a read-only directory. -/
def writeRoCall : ChatCompletionMessageToolCall :=
  { id := "call_8",
    function :=
      { name := "Write"
        arguments := "\x7b\"file_path\": \"/readonly/out.txt\", \"content\": \"data\"\x7d" } }

/-- A world where writing `/readonly/out.txt` fails with a permission
error and every other path is writable. -/
def roDirWorld : World :=
  { fs := fun _ => none,
    bash := fun _ => none,
    writeError := fun p =>
      if p = "/readonly/out.txt" then some "Permission denied (os error 13)" else none }

/-- A Write call putting `hi` into `note.txt`. -/
def writeNoteCall : ChatCompletionMessageToolCall :=
  { id := "call_10",
    function :=
      { name := "Write"
        arguments := "\x7b\"file_path\": \"note.txt\", \"content\": \"hi\"\x7d" } }

/-- A Read call for `note.txt`. -/
def readNoteCall : ChatCompletionMessageToolCall :=
  { id := "call_11",
    function := { name := "Read", arguments := "\x7b\"file_path\": \"note.txt\"\x7d" } }

/-- The world after `writeNoteCall` succeeds in `emptyWorld`. -/
def noteWorld : World :=
  { fs := fun q => if q = "note.txt" then some "hi" else none,
    bash := fun _ => none,
    writeError := fun _ => none }

-- ## Helper lemmas shared between the claims

/-- On success, a dispatched function call pushes a response whose first
component is the request itself (every arm of the handlers does so). -/
theorem dispatchFunctionCall_fst (w w2 : World)
    (tool_call : ChatCompletionMessageToolCall)
    (entry : ChatCompletionMessageToolCall × Json)
    (h : dispatchFunctionCall w tool_call = Except.ok (w2, entry)) :
    entry.1 = tool_call := by
  unfold dispatchFunctionCall call_read_tool call_write_tool call_bash_tool at h
  repeat' split at h
  all_goals simp at h
  all_goals (obtain ⟨h1, h2⟩ := h; rw [← h2])

/-- On success, the collected responses correspond exactly, in order, to the
function-variant calls of the turn. -/
theorem processToolCalls_map_fst (calls : List ChatCompletionMessageToolCalls) :
    ∀ w w2 rs, processToolCalls w calls = Except.ok (w2, rs) →
      rs.map Prod.fst = functionCallsOf calls := by
  induction calls with
  | nil =>
    intro w w2 rs h
    simp only [processToolCalls] at h
    cases h
    rfl
  | cons head rest ih =>
    intro w w2 rs h
    cases head with
    | custom cid input =>
      simp only [processToolCalls] at h
      exact ih w w2 rs h
    | function tc =>
      simp only [processToolCalls] at h
      cases hd : dispatchFunctionCall w tc with
      | error e => rw [hd] at h; cases h
      | ok p =>
        rw [hd] at h
        cases p with
        | mk w3 entry =>
          dsimp only at h
          cases hr : processToolCalls w3 rest with
          | error e => rw [hr] at h; cases h
          | ok q =>
            rw [hr] at h
            cases q with
            | mk w4 entries =>
              injection h with h2
              injection h2 with hw hrs
              subst hrs
              simp only [List.map, functionCallsOf]
              rw [dispatchFunctionCall_fst w w3 tc entry hd]
              rw [ih w3 w4 entries hr]

/-- The function-variant calls are at most as many as all calls. -/
theorem functionCallsOf_length_le (calls : List ChatCompletionMessageToolCalls) :
    (functionCallsOf calls).length ≤ calls.length := by
  induction calls with
  | nil => exact Nat.le_refl 0
  | cons head rest ih =>
    cases head with
    | function tc =>
      simp only [functionCallsOf, List.length_cons]
      exact Nat.succ_le_succ ih
    | custom cid input =>
      simp only [functionCallsOf, List.length_cons]
      exact Nat.le_succ_of_le ih

/-- A turn containing a custom-variant call has strictly fewer
function-variant calls than calls. -/
theorem functionCallsOf_length_lt (calls : List ChatCompletionMessageToolCalls)
    (cid input : String)
    (hmem : ChatCompletionMessageToolCalls.custom cid input ∈ calls) :
    (functionCallsOf calls).length < calls.length := by
  induction calls with
  | nil => cases hmem
  | cons head rest ih =>
    cases head with
    | function tc =>
      have hmem2 : ChatCompletionMessageToolCalls.custom cid input ∈ rest := by
        rcases List.mem_cons.mp hmem with h | h
        · simp at h
        · exact h
      simp only [functionCallsOf, List.length_cons]
      exact Nat.succ_lt_succ (ih hmem2)
    | custom c2 i2 =>
      simp only [functionCallsOf, List.length_cons]
      exact Nat.lt_succ_of_le (functionCallsOf_length_le rest)

/-- When every call of the turn is the function variant, the
function-variant calls are all of them. -/
theorem allFunctionCalls_length (calls : List ChatCompletionMessageToolCalls)
    (h : allFunctionCalls calls = true) :
    (functionCallsOf calls).length = calls.length := by
  induction calls with
  | nil => rfl
  | cons head rest ih =>
    cases head with
    | function tc =>
      simp only [allFunctionCalls] at h
      simp only [functionCallsOf, List.length_cons]
      rw [ih h]
    | custom cid input =>
      simp only [allFunctionCalls] at h
      exact Bool.noConfusion h

-- ## The claims

/-- C1 (counterexample): a Read tool call whose `file_path` names a missing
file does NOT produce a ToolResult whose content is the failure message and
does NOT let the loop proceed: `call_read_tool` propagates the error of
`read_file_to_string` with `?`, `main` propagates it further, and the
iteration ends fatally. -/
theorem C1_counterexample_read_missing_file_fatal :
    loopBody emptyWorld []
        (singleCallResponse (ChatCompletionMessageToolCalls.function readMissingCall)) =
      Except.error ("No such file or directory (os error 2): /missing.txt") ∧
    stepOk (loopBody emptyWorld []
        (singleCallResponse (ChatCompletionMessageToolCalls.function readMissingCall))) =
      false :=
  ⟨rfl, rfl⟩

/-- C1 (amended): for every Read tool call whose `file_path` names a missing
or unreadable file, the dispatch produces no ToolResult; the read failure
propagates as a fatal error, the orchestrator terminates, and the loop does
not proceed to the next model call. -/
theorem C1_read_missing_file_terminates (w : World) (messages : List ReqMessage)
    (tool_call : ChatCompletionMessageToolCall)
    (rest : List ChatCompletionMessageToolCalls)
    (c₀ : Option String) (cs : List Choice) (p : String)
    (hname : tool_call.function.name = "Read")
    (hargs : parseJson tool_call.function.arguments =
      some (Json.obj [("file_path", Json.str p)]))
    (hmissing : w.fs p = none) :
    loopBody w messages
      (Response.mk
        (Choice.mk
          (ResponseMessage.mk c₀
            (some (ChatCompletionMessageToolCalls.function tool_call :: rest))) :: cs)) =
      Except.error ("No such file or directory (os error 2): " ++ p) := by
  have hd : dispatchFunctionCall w tool_call =
      Except.error ("No such file or directory (os error 2): " ++ p) := by
    have h1 : dispatchFunctionCall w tool_call =
        call_read_tool w tool_call (Json.obj [("file_path", Json.str p)]) := by
      unfold dispatchFunctionCall
      rw [hargs, hname]
      rfl
    rw [h1]
    have h2 : (jsonIndex (Json.obj [("file_path", Json.str p)]) "file_path").asStr =
        some p := rfl
    unfold call_read_tool
    rw [h2]
    dsimp only
    unfold read_file_to_string
    rw [hmissing]
  unfold loopBody
  dsimp only [List.head?]
  unfold processToolCalls
  rw [hd]

/-- C1 (witness): the amended theorem at the concrete missing file. -/
theorem C1_witness_read_missing_file :
    loopBody emptyWorld []
      (Response.mk
        (Choice.mk
          (ResponseMessage.mk none
            (some [ChatCompletionMessageToolCalls.function readMissingCall])) :: [])) =
      Except.error ("No such file or directory (os error 2): /missing.txt") :=
  C1_read_missing_file_terminates emptyWorld [] readMissingCall [] none []
    "/missing.txt" rfl rfl rfl

/-- C2 (counterexample): a turn whose single tool-call request is the
non-function (custom) variant appends zero tool-result messages, not
exactly one per request, so the counting part of the claim fails on such a
turn (the `if let` at `main.rs:80` skips the request silently). -/
theorem C2_counterexample_custom_call_without_result :
    loopBody emptyWorld []
        (singleCallResponse (ChatCompletionMessageToolCalls.custom "call_9" "payload")) =
      Except.ok (StepOutcome.next [ReqMessage.assistant []] emptyWorld) ∧
    toolMessageCount [ReqMessage.assistant []] = 0 :=
  ⟨rfl, rfl⟩

/-- C2 (amended): for every turn consisting of function-variant tool-call
requests whose dispatch all succeeds, the appended messages are the
assistant message carrying the requests followed by exactly one tool-result
message per request, and the results' `tool_call_id`s equal the requests'
ids in the same order. -/
theorem C2_tool_responses_match_requests (w w2 : World)
    (messages : List ReqMessage) (c₀ : Option String)
    (calls : List ChatCompletionMessageToolCalls) (cs : List Choice)
    (rs : List (ChatCompletionMessageToolCall × Json))
    (hproc : processToolCalls w calls = Except.ok (w2, rs))
    (hfun : allFunctionCalls calls = true) :
    loopBody w messages
        (Response.mk (Choice.mk (ResponseMessage.mk c₀ (some calls)) :: cs)) =
      Except.ok (StepOutcome.next
        (messages ++ ReqMessage.assistant
            (rs.map (fun r => ChatCompletionMessageToolCalls.function r.1)) ::
          rs.map (fun r => ReqMessage.tool r.1.id (renderJson r.2))) w2) ∧
    (rs.map (fun r => ReqMessage.tool r.1.id (renderJson r.2))).length = calls.length ∧
    rs.map (fun r => r.1.id) = (functionCallsOf calls).map (fun tc => tc.id) := by
  have hfst := processToolCalls_map_fst calls w w2 rs hproc
  refine ⟨?_, ?_, ?_⟩
  · unfold loopBody
    dsimp only [List.head?]
    rw [hproc]
    rfl
  · have h3 : rs.length = (functionCallsOf calls).length := by
      rw [← hfst]
      simp
    simp only [List.length_map]
    rw [h3, allFunctionCalls_length calls hfun]
  · rw [← hfst]
    simp [List.map_map, Function.comp]

/-- C2 (witness): the amended theorem at a turn with one successful Read. -/
theorem C2_witness_single_read_turn :
    loopBody configWorld []
      (Response.mk
        (Choice.mk
          (ResponseMessage.mk none
            (some [ChatCompletionMessageToolCalls.function readConfigCall])) :: [])) =
      Except.ok (StepOutcome.next
        ([] ++ ReqMessage.assistant [ChatCompletionMessageToolCalls.function readConfigCall] ::
          [ReqMessage.tool "call_2" "\"hello\""]) configWorld) ∧
    ([ReqMessage.tool "call_2" "\"hello\""] : List ReqMessage).length = 1 ∧
    (["call_2"] : List String) = ["call_2"] :=
  C2_tool_responses_match_requests configWorld configWorld [] none
    [ChatCompletionMessageToolCalls.function readConfigCall] []
    [(readConfigCall, Json.str "hello")] rfl rfl

/-- C3 (counterexample): a Read call invoked with `\x7b\x7d` produces an error
message describing the missing `file_path` key, but NOT as a ToolResult:
the `.context(...)?` in `call_read_tool` propagates it as a fatal error, the
process crashes, and the loop does not continue. -/
theorem C3_counterexample_missing_key_fatal :
    loopBody emptyWorld []
        (singleCallResponse (ChatCompletionMessageToolCalls.function readEmptyArgsCall)) =
      Except.error ("Should have a `file_path` argument. Args were: Object \x7b\x7d") ∧
    stepOk (loopBody emptyWorld []
        (singleCallResponse (ChatCompletionMessageToolCalls.function readEmptyArgsCall))) =
      false :=
  ⟨rfl, rfl⟩

/-- C3 (amended): for every Read tool call whose parsed argument object has
no string `file_path` value, dispatch fails with an error describing the
missing `file_path` key, and that error is fatal: no ToolResult is
produced, the process exits, and the loop does not continue. -/
theorem C3_missing_argument_terminates (w : World) (messages : List ReqMessage)
    (tool_call : ChatCompletionMessageToolCall)
    (rest : List ChatCompletionMessageToolCalls)
    (c₀ : Option String) (cs : List Choice) (args : Json)
    (hname : tool_call.function.name = "Read")
    (hargs : parseJson tool_call.function.arguments = some args)
    (hmissing : (jsonIndex args "file_path").asStr = none) :
    loopBody w messages
      (Response.mk
        (Choice.mk
          (ResponseMessage.mk c₀
            (some (ChatCompletionMessageToolCalls.function tool_call :: rest))) :: cs)) =
      Except.error ("Should have a `file_path` argument. Args were: " ++ debugJson args) := by
  have hd : dispatchFunctionCall w tool_call =
      Except.error ("Should have a `file_path` argument. Args were: " ++ debugJson args) := by
    have h1 : dispatchFunctionCall w tool_call = call_read_tool w tool_call args := by
      unfold dispatchFunctionCall
      rw [hargs, hname]
      rfl
    rw [h1]
    unfold call_read_tool
    rw [hmissing]
  unfold loopBody
  dsimp only [List.head?]
  unfold processToolCalls
  rw [hd]

/-- C3 (witness): the amended theorem at a Read call with arguments
`\x7b\x7d`. -/
theorem C3_witness_read_empty_args :
    loopBody emptyWorld []
      (Response.mk
        (Choice.mk
          (ResponseMessage.mk none
            (some [ChatCompletionMessageToolCalls.function readEmptyArgsCall])) :: [])) =
      Except.error
        ("Should have a `file_path` argument. Args were: " ++ debugJson (Json.obj [])) :=
  C3_missing_argument_terminates emptyWorld [] readEmptyArgsCall [] none []
    (Json.obj []) rfl rfl rfl

/-- C4 (counterexample): a tool call whose raw argument string is not valid
JSON is NOT captured as textual tool-result content: the
`serde_json::from_str(..)?` at `main.rs:84` propagates the parse error out
of `main`, so the iteration is fatal and the loop does not continue. -/
theorem C4_counterexample_invalid_json_fatal :
    loopBody emptyWorld []
        (singleCallResponse (ChatCompletionMessageToolCalls.function badJsonReadCall)) =
      Except.error ("invalid JSON in tool arguments: not json") ∧
    stepOk (loopBody emptyWorld []
        (singleCallResponse (ChatCompletionMessageToolCalls.function badJsonReadCall))) =
      false :=
  ⟨rfl, rfl⟩

/-- C4 (amended): for every function tool call whose raw argument string is
not valid JSON, dispatch fails with an argument-parse error that propagates
fatally: the loop terminates with the error instead of returning it to the
model. -/
theorem C4_parse_failure_terminates (w : World) (messages : List ReqMessage)
    (tool_call : ChatCompletionMessageToolCall)
    (rest : List ChatCompletionMessageToolCalls)
    (c₀ : Option String) (cs : List Choice)
    (hbad : parseJson tool_call.function.arguments = none) :
    loopBody w messages
      (Response.mk
        (Choice.mk
          (ResponseMessage.mk c₀
            (some (ChatCompletionMessageToolCalls.function tool_call :: rest))) :: cs)) =
      Except.error ("invalid JSON in tool arguments: " ++ tool_call.function.arguments) := by
  have hd : dispatchFunctionCall w tool_call =
      Except.error ("invalid JSON in tool arguments: " ++ tool_call.function.arguments) := by
    unfold dispatchFunctionCall
    rw [hbad]
  unfold loopBody
  dsimp only [List.head?]
  unfold processToolCalls
  rw [hd]

/-- C4 (witness): the amended theorem at the raw arguments `not json`. -/
theorem C4_witness_not_json :
    loopBody emptyWorld []
      (Response.mk
        (Choice.mk
          (ResponseMessage.mk none
            (some [ChatCompletionMessageToolCalls.function badJsonReadCall])) :: [])) =
      Except.error ("invalid JSON in tool arguments: not json") :=
  C4_parse_failure_terminates emptyWorld [] badJsonReadCall [] none [] rfl

/-- C5 (counterexample): an unknown tool name dispatched with arguments that
are not valid JSON does NOT yield an unknown-tool ToolResult: the argument
parse at `main.rs:84` happens before the name match and its error aborts
the process, so the claim fails for at least one choice of arguments. -/
theorem C5_counterexample_unknown_tool_bad_args_fatal :
    loopBody emptyWorld []
        (singleCallResponse (ChatCompletionMessageToolCalls.function fooBadArgsCall)) =
      Except.error ("invalid JSON in tool arguments: \x7d\x7b") ∧
    stepOk (loopBody emptyWorld []
        (singleCallResponse (ChatCompletionMessageToolCalls.function fooBadArgsCall))) =
      false :=
  ⟨rfl, rfl⟩

/-- C5 (amended): for every tool call with JSON-parsable arguments naming a
tool outside Read, Write and Bash, dispatch yields a ToolResult containing
an unknown-tool message for that call's id, the process does not abort, and
the loop proceeds to the next model call. -/
theorem C5_unknown_tool_yields_result (w : World) (messages : List ReqMessage)
    (tool_call : ChatCompletionMessageToolCall)
    (c₀ : Option String) (cs : List Choice) (args : Json)
    (hargs : parseJson tool_call.function.arguments = some args)
    (h1 : tool_call.function.name ≠ "Read")
    (h2 : tool_call.function.name ≠ "Write")
    (h3 : tool_call.function.name ≠ "Bash") :
    loopBody w messages
      (Response.mk
        (Choice.mk
          (ResponseMessage.mk c₀
            (some [ChatCompletionMessageToolCalls.function tool_call])) :: cs)) =
      Except.ok (StepOutcome.next
        (messages ++ ReqMessage.assistant [ChatCompletionMessageToolCalls.function tool_call] ::
          [ReqMessage.tool tool_call.id
            (renderJson (Json.str ("Unknown tool: " ++ tool_call.function.name)))]) w) := by
  have hd : dispatchFunctionCall w tool_call =
      Except.ok (w, (tool_call, Json.str ("Unknown tool: " ++ tool_call.function.name))) := by
    unfold dispatchFunctionCall
    rw [hargs]
    dsimp only
    split
    all_goals simp_all
  have hp : processToolCalls w [ChatCompletionMessageToolCalls.function tool_call] =
      Except.ok (w, [(tool_call, Json.str ("Unknown tool: " ++ tool_call.function.name))]) := by
    simp only [processToolCalls]
    rw [hd]
  unfold loopBody
  dsimp only [List.head?]
  rw [hp]
  rfl

/-- C5 (witness): the amended theorem at the unknown tool `Foo` with
empty-object arguments. -/
theorem C5_witness_unknown_tool_foo :
    loopBody emptyWorld []
      (Response.mk
        (Choice.mk
          (ResponseMessage.mk none
            (some [ChatCompletionMessageToolCalls.function fooEmptyArgsCall])) :: [])) =
      Except.ok (StepOutcome.next
        ([] ++ ReqMessage.assistant [ChatCompletionMessageToolCalls.function fooEmptyArgsCall] ::
          [ReqMessage.tool "call_6" "\"Unknown tool: Foo\""]) emptyWorld) :=
  C5_unknown_tool_yields_result emptyWorld [] fooEmptyArgsCall none [] (Json.obj [])
    rfl (by decide) (by decide) (by decide)

/-- C6 (counterexample): for the command `exit 1` (empty stdout, empty
stderr, exit code 1) the result content is a single space, not the plain
concatenation of stdout and stderr: `execute_bash_command` formats the
output as `stdout ++ " " ++ stderr` (`format!("\x7bstdout\x7d \x7bstderr\x7d")`). -/
theorem C6_counterexample_bash_space_not_concat :
    execute_bash_command exitOneWorld "exit 1" = Except.ok " " ∧
    (" " : String) ≠ "" ++ "" := by
  exact ⟨rfl, by decide⟩

/-- C6 (amended): for every Bash tool call that spawns successfully, the
result content is the captured stdout, a single space, then the captured
stderr, regardless of the exit code (the code is ignored); in particular
for `exit 1` the result is a single space. Only a failure to spawn is an
error. -/
theorem C6_bash_output_joined_by_space (w : World) (command stdout stderr : String)
    (code : Int)
    (hspawn : w.bash command = some (code, stdout, stderr)) :
    execute_bash_command w command = Except.ok (stdout ++ " " ++ stderr) := by
  unfold execute_bash_command
  rw [hspawn]

/-- C6 (witness): the amended theorem at the command `exit 1`, whose exit
code 1 does not make the result an error. -/
theorem C6_witness_exit_one :
    execute_bash_command exitOneWorld "exit 1" = Except.ok ("" ++ " " ++ "") :=
  C6_bash_output_joined_by_space exitOneWorld "exit 1" "" "" 1 rfl

/-- C7 (counterexample): a third fatal case exists beyond the two the claim
names: a response that does carry tool calls (so it is neither of the two
malformed shapes) still fails fatally when a call's raw arguments are not
valid JSON — the loop does not complete a transition there. -/
theorem C7_counterexample_third_fatal_case :
    loopBody emptyWorld []
        (singleCallResponse (ChatCompletionMessageToolCalls.function badJsonWriteCall)) =
      Except.error ("invalid JSON in tool arguments: oops") ∧
    (singleCallResponse (ChatCompletionMessageToolCalls.function badJsonWriteCall)).choices.map
        (fun c => c.message.tool_calls.isSome) = [true] :=
  ⟨rfl, rfl⟩

/-- C7 (amended): an iteration fails fatally in exactly three cases — zero
choices, a first choice with neither tool calls nor text, or a first choice
with tool calls whose dispatch itself fails (malformed arguments or handler
error); otherwise it transitions (dispatches the tools, or prints the text
and terminates with the Done state). -/
theorem C7_fatal_cases_characterized (w : World) (messages : List ReqMessage)
    (response : Response) :
    (∃ e, loopBody w messages response = Except.error e) ↔
      (response.choices.head? = none ∨
        (∃ choice, response.choices.head? = some choice ∧
          choice.message.tool_calls = none ∧ choice.message.content = none) ∨
        (∃ choice calls e, response.choices.head? = some choice ∧
          choice.message.tool_calls = some calls ∧
          processToolCalls w calls = Except.error e)) := by
  unfold loopBody
  cases hh : response.choices.head? with
  | none => simp
  | some choice =>
    cases ht : choice.message.tool_calls with
    | some calls =>
      cases hp : processToolCalls w calls with
      | error e => simp [ht, hp]
      | ok q =>
        cases q with
        | mk w2 rs => simp [ht, hp]
    | none =>
      cases hc : choice.message.content with
      | some text => simp [ht, hc]
      | none => simp [ht, hc]

/-- C8 (counterexample): the round-trip does NOT hold for every path: on a
path whose write fails (here, inside a read-only directory), `File::create?`
or `write_all?` propagates the I/O error, `call_write_tool` propagates it
further (`main.rs:166`), the iteration ends fatally, and no Read ever
yields the contents. -/
theorem C8_counterexample_unwritable_path :
    call_write_tool roDirWorld writeRoCall
        (Json.obj [("file_path", Json.str "/readonly/out.txt"),
          ("content", Json.str "data")]) =
      Except.error "Permission denied (os error 13)" ∧
    stepOk (loopBody roDirWorld []
        (singleCallResponse (ChatCompletionMessageToolCalls.function writeRoCall))) =
      false :=
  ⟨rfl, rfl⟩

/-- C8 (amended): round-trip — whenever executing the Write tool with a
path and contents succeeds, its tool response value is the written contents,
and executing the Read tool on that path afterwards (no intervening change)
succeeds and yields contents equal to the written ones. -/
theorem C8_write_then_read_roundtrip (w w2 : World)
    (tc1 tc2 : ChatCompletionMessageToolCall) (p c : String)
    (r : ChatCompletionMessageToolCall × Json)
    (hwrite : call_write_tool w tc1
        (Json.obj [("file_path", Json.str p), ("content", Json.str c)]) =
      Except.ok (w2, r)) :
    r = (tc1, Json.str c) ∧
    call_read_tool w2 tc2 (Json.obj [("file_path", Json.str p)]) =
      Except.ok (w2, (tc2, Json.str c)) := by
  have h1 : (jsonIndex
      (Json.obj [("file_path", Json.str p), ("content", Json.str c)])
      "file_path").asStr = some p := rfl
  have h2 : (jsonIndex
      (Json.obj [("file_path", Json.str p), ("content", Json.str c)])
      "content").asStr = some c := rfl
  unfold call_write_tool at hwrite
  rw [h1] at hwrite
  dsimp only at hwrite
  rw [h2] at hwrite
  dsimp only at hwrite
  unfold write_to_file at hwrite
  cases hw : w.writeError p with
  | some e =>
    rw [hw] at hwrite
    exact absurd hwrite (by simp)
  | none =>
    rw [hw] at hwrite
    dsimp only at hwrite
    injection hwrite with hpair
    injection hpair with hw2 hr
    subst hw2
    subst hr
    refine ⟨rfl, ?_⟩
    have h3 : (jsonIndex (Json.obj [("file_path", Json.str p)]) "file_path").asStr =
        some p := rfl
    unfold call_read_tool
    rw [h3]
    dsimp only
    have h4 : read_file_to_string
        { w with fs := fun q => if q = p then some c else w.fs q } p =
        Except.ok c := by
      simp [read_file_to_string]
    rw [h4]

/-- C8 (witness): the amended theorem at a concrete successful write of
`hi` to `note.txt`, read back from the resulting world. -/
theorem C8_witness_write_note_read_note :
    ((writeNoteCall, Json.str "hi") : ChatCompletionMessageToolCall × Json) =
      (writeNoteCall, Json.str "hi") ∧
    call_read_tool noteWorld readNoteCall (Json.obj [("file_path", Json.str "note.txt")]) =
      Except.ok (noteWorld, (readNoteCall, Json.str "hi")) :=
  C8_write_then_read_roundtrip emptyWorld noteWorld writeNoteCall readNoteCall
    "note.txt" "hi" (writeNoteCall, Json.str "hi") rfl

/-- C9: when a response's message carries both tool calls and text, the
orchestrator takes the tool-call branch — the outcome is entirely the
dispatch outcome — and it never prints the text or terminates with the
Done state: tool calls take strict priority in the branch order of
`main.rs:76-103`. -/
theorem C9_tool_calls_take_priority (w : World) (messages : List ReqMessage)
    (text : String) (calls : List ChatCompletionMessageToolCalls) (cs : List Choice) :
    loopBody w messages
        (Response.mk (Choice.mk (ResponseMessage.mk (some text) (some calls)) :: cs)) =
      Except.map (fun q => StepOutcome.next (append_tool_responses messages q.2) q.1)
        (processToolCalls w calls) ∧
    ∀ t2 : String,
      loopBody w messages
          (Response.mk (Choice.mk (ResponseMessage.mk (some text) (some calls)) :: cs)) ≠
        Except.ok (StepOutcome.done t2) := by
  have hmain : loopBody w messages
      (Response.mk (Choice.mk (ResponseMessage.mk (some text) (some calls)) :: cs)) =
      Except.map (fun q => StepOutcome.next (append_tool_responses messages q.2) q.1)
        (processToolCalls w calls) := by
    unfold loopBody
    dsimp only [List.head?]
    cases hp : processToolCalls w calls with
    | error e => simp [hp, Except.map]
    | ok q =>
      cases q with
      | mk w2 rs => simp [hp, Except.map]
  refine ⟨hmain, ?_⟩
  intro t2 hcontra
  rw [hmain] at hcontra
  cases hp : processToolCalls w calls with
  | error e =>
    rw [hp] at hcontra
    simp [Except.map] at hcontra
  | ok q =>
    rw [hp] at hcontra
    cases q with
    | mk w2 rs => simp [Except.map] at hcontra

/-- C10: a tool call whose variant is not a function call is silently
skipped — the collected responses are exactly the function-variant requests
in order, so a turn containing a custom-variant call yields strictly fewer
tool results than requests. -/
theorem C10_custom_variant_calls_skipped (w w2 : World)
    (calls : List ChatCompletionMessageToolCalls)
    (rs : List (ChatCompletionMessageToolCall × Json)) (cid input : String)
    (hproc : processToolCalls w calls = Except.ok (w2, rs))
    (hmem : ChatCompletionMessageToolCalls.custom cid input ∈ calls) :
    rs.map Prod.fst = functionCallsOf calls ∧ rs.length < calls.length := by
  have hfst := processToolCalls_map_fst calls w w2 rs hproc
  refine ⟨hfst, ?_⟩
  have h1 : rs.length = (functionCallsOf calls).length := by
    rw [← hfst]
    simp
  rw [h1]
  exact functionCallsOf_length_lt calls cid input hmem

/-- C10 (witness): the theorem at a one-request turn holding only a
custom-variant call, which yields zero responses. -/
theorem C10_witness_custom_call :
    ([] : List (ChatCompletionMessageToolCall × Json)).map Prod.fst =
      functionCallsOf [ChatCompletionMessageToolCalls.custom "call_9" "payload"] ∧
    ([] : List (ChatCompletionMessageToolCall × Json)).length <
      ([ChatCompletionMessageToolCalls.custom "call_9" "payload"] :
        List ChatCompletionMessageToolCalls).length :=
  C10_custom_variant_calls_skipped emptyWorld emptyWorld
    [ChatCompletionMessageToolCalls.custom "call_9" "payload"] [] "call_9" "payload"
    rfl (by decide)
